import Mathlib

/-
Verification development for the english-course-agent repository.

Shallow embedding of:
  - the state model of src/state.py (CourseGenerationState and its
    image-related record types),
  - the reducer merge of the workflow engine (the engine itself is the
    external LangGraph library; its contract is modelled from the spec,
    sections 4.1, 4.3 and 4.5),
  - the two routers of src/graph.py (route_content_feedback and
    route_webpage_feedback) together with the label sets declared for
    their conditional edges,
  - the session store of src/storage.py (SQLite table user_sessions),
  - the failure-absorbing nodes of src/nodes.py (generate_initial_draft,
    generate_webpage, regenerate_single_image).

External collaborators (LLM calls, image generation, SQLite I/O) are
represented by explicit outcome parameters, so every embedded function is
a total, executable Lean function.
-/

namespace EnglishCourseAgent

/-! ## Python string primitives

The routers and nodes use Python's `str.strip()`, `str.lower()`,
`str.replace` and the `needle in haystack` containment test.  We model
them over `String` / `List Char`.  `lowerAscii` lowers ASCII letters
(`Char.toLower`), which agrees with Python `str.lower` on all strings
appearing in the repository (ASCII letters, digits, CJK characters). -/

/-- Python `str.lower()`, restricted to ASCII case mapping. -/
def lowerAscii (s : String) : String :=
  String.mk (s.data.map Char.toLower)

/-- ASCII whitespace, as stripped by Python `str.strip()`. -/
def isPySpace (c : Char) : Bool :=
  c == ' ' || c == '\t' || c == '\n' || c == '\r' || c == '\x0b' || c == '\x0c'

/-- Python `str.strip()`: remove leading and trailing whitespace. -/
def pyStrip (s : String) : String :=
  String.mk (((s.data.dropWhile isPySpace).reverse.dropWhile isPySpace).reverse)

/-- Does the character list start with `needle`? -/
def leadsWith : List Char → List Char → Bool
  | [], _ => true
  | _ :: _, [] => false
  | c :: cs, d :: ds => c == d && leadsWith cs ds

/-- Does the character list contain `needle` as a contiguous sublist? -/
def hasSubList (needle : List Char) : List Char → Bool
  | [] => needle.isEmpty
  | c :: cs => leadsWith needle (c :: cs) || hasSubList needle cs

/-- Python `needle in hay` for strings. -/
def containsSub (hay needle : String) : Bool :=
  hasSubList needle.data hay.data

/-! ## Data model (src/state.py)

`CourseGenerationState` is a TypedDict threaded through the graph; keys
may be absent until first written, so scalar fields are embedded as
`Option`.  The sole accumulating field is `messages`, declared with the
`add_messages` reducer; the engine gives its channel the empty list as
default, so it is embedded as a plain list. -/

/-- src/state.py ImageRequirement. -/
structure ImageRequirement where
  id : String
  type : String
  content : String
  description : String
  prompt_en : String
deriving DecidableEq

/-- src/state.py GeneratedImage. -/
structure GeneratedImage where
  id : String
  file_path : String
  absolute_path : String
  alt_text : String
deriving DecidableEq

/-- A chat message (langchain BaseMessage), abstracted to its role and
textual content; only its identity matters for the merge properties. -/
structure BMessage where
  role : String
  content : String
deriving DecidableEq

/-- src/state.py CourseGenerationState (the full state document). -/
structure CourseGenerationState where
  theme : Option String := none
  user_feedback : Option String := none
  curriculum_framework : Option String := none
  lesson_draft : Option String := none
  final_lesson_content : Option String := none
  webpage_html : Option String := none
  deployment_url : Option String := none
  lesson_id : Option String := none
  image_requirements : Option (List ImageRequirement) := none
  generated_images : Option (List GeneratedImage) := none
  messages : List BMessage := []
deriving DecidableEq

/-- A partial state: the mapping a node returns / an input patch.  A
`none` field is an omitted key (left unchanged by the merge). -/
structure StatePatch where
  theme : Option String := none
  user_feedback : Option String := none
  curriculum_framework : Option String := none
  lesson_draft : Option String := none
  final_lesson_content : Option String := none
  webpage_html : Option String := none
  deployment_url : Option String := none
  lesson_id : Option String := none
  image_requirements : Option (List ImageRequirement) := none
  generated_images : Option (List GeneratedImage) := none
  messages : Option (List BMessage) := none
deriving DecidableEq

/-- The empty partial state (Python `{}`). -/
def emptyPatch : StatePatch := {}

/-- The empty/default state document. -/
def emptyState : CourseGenerationState := {}

/-! ## Reducer merge

Modelled from the spec: section 4.3.  Overwrite fields:
`merged[k] = patch[k] if k in patch else state[k]`.  The accumulating
field `messages` (declared with the `add_messages` reducer in
src/state.py, lines 74-77; the reducer body is langgraph library code)
is modelled from the spec as order-preserving sequence concatenation. -/

/-- Overwrite-field merge rule for one field. -/
def ov {α : Type} (old new : Option α) : Option α :=
  match new with
  | some v => some v
  | none => old

/-- Modelled from the spec: field-level reducer merge of a partial state
into a full state (spec section 4.3; the engine applying it is the
external LangGraph library). -/
def mergeState (s : CourseGenerationState) (p : StatePatch) : CourseGenerationState where
  theme := ov s.theme p.theme
  user_feedback := ov s.user_feedback p.user_feedback
  curriculum_framework := ov s.curriculum_framework p.curriculum_framework
  lesson_draft := ov s.lesson_draft p.lesson_draft
  final_lesson_content := ov s.final_lesson_content p.final_lesson_content
  webpage_html := ov s.webpage_html p.webpage_html
  deployment_url := ov s.deployment_url p.deployment_url
  lesson_id := ov s.lesson_id p.lesson_id
  image_requirements := ov s.image_requirements p.image_requirements
  generated_images := ov s.generated_images p.generated_images
  messages := s.messages ++ (p.messages.getD [])

/-! ## Routers (src/graph.py) -/

/-- langgraph terminal marker (langgraph.graph.END). -/
def END : String := "__end__"

/-- `state.get("user_feedback", "").strip().lower()` — the processed
feedback both routers branch on. -/
def processedFeedback (state : CourseGenerationState) : String :=
  lowerAscii (pyStrip (state.user_feedback.getD ""))

/-- src/graph.py route_content_feedback (lines 28-74). -/
def route_content_feedback (state : CourseGenerationState) : String :=
  if containsSub (processedFeedback state) "同意"
      || containsSub (processedFeedback state) "approve" then
    "finalize_content"
  else if processedFeedback state ≠ "" then
    "revise_draft"
  else
    "revise_draft"

/-- src/graph.py line 105. -/
def image_keywords : List String := ["图片", "图", "picture", "image", "照片", "配图"]

/-- src/graph.py line 113. -/
def approve_phrases : List String := ["没问题", "没意见", "没啥问题", "没什么问题"]

/-- src/graph.py line 120. -/
def negative_keywords : List String := ["不", "别", "无", "非"]

/-- src/graph.py line 124. -/
def approve_keywords : List String :=
  ["同意", "approve", "确认", "可以", "满意", "很好", "ok", "好的"]

/-- Python `any(keyword in fb for keyword in kws)`. -/
def hasAnyKeyword (fb : String) (kws : List String) : Bool :=
  kws.any (fun k => containsSub fb k)

/-- src/graph.py route_webpage_feedback (lines 76-146). -/
def route_webpage_feedback (state : CourseGenerationState) : String :=
  if hasAnyKeyword (processedFeedback state) image_keywords then
    "regenerate_single_image"
  else if hasAnyKeyword (processedFeedback state) approve_phrases then
    END
  else if hasAnyKeyword (processedFeedback state) approve_keywords
      && !(hasAnyKeyword (processedFeedback state) negative_keywords) then
    END
  else if processedFeedback state ≠ "" then
    "generate_webpage"
  else
    "generate_webpage"

/-- Declared targets of the conditional edges owned by
generate_initial_draft and revise_draft (src/graph.py lines 170-185). -/
def content_edge_targets : List String := ["finalize_content", "revise_draft"]

/-- Declared targets of the conditional edge owned by
deploy_webpage_node (src/graph.py lines 196-204). -/
def webpage_edge_targets : List String :=
  ["generate_webpage", "regenerate_single_image", END]

/-! ## Execution engine

Modelled from the spec: the execution engine (`invoke`, the execution
loop, checkpointing, router dispatch) and the external state-patch
operation are the LangGraph library (`app.invoke`, `app.update_state`),
not code under src/; they are modelled from spec sections 4.1, 4.4
and 4.5.  Node callables and routers are the graph's entries; here they
are fields of an abstract `Graph`, so that the engine theorems hold for
every graph, including the one built in src/graph.py. -/

/-- An outgoing edge of a node: a static edge or a conditional edge with
a router and its declared label-to-target mapping. -/
inductive EdgeKind where
  | static (target : String)
  | conditional (router : CourseGenerationState → String)
      (mapping : List (String × String))

/-- Modelled from the spec: graph definition (spec section 3): node
registry, edges, interrupt points, entry node. -/
structure Graph where
  nodes : List (String × (CourseGenerationState → StatePatch))
  edges : String → Option EdgeKind
  interruptAfter : List String
  entry : String

/-- Modelled from the spec: a checkpoint is the state snapshot plus the
pending node (spec section 3); the schema version is constant and
omitted. -/
structure Checkpoint where
  state : CourseGenerationState
  pending : String
deriving DecidableEq

/-- Failures the engine treats as fatal for an invocation
(spec sections 4.1 and 7). -/
inductive EngineError where
  | unknownNode (name : String)
  | missingEdge (name : String)
  | unknownLabel (label : String)
  | outOfFuel
deriving DecidableEq

/-- Modelled from the spec: resolve the next node after `current` with
post-merge state `s` (spec section 4.1, step 3): static edges are fixed;
a conditional edge evaluates its router on the post-merge state and the
label must be in the declared mapping, otherwise fatal. -/
def resolveNext (g : Graph) (current : String) (s : CourseGenerationState) :
    Except EngineError String :=
  match g.edges current with
  | none => .error (.missingEdge current)
  | some (.static t) => .ok t
  | some (.conditional router mapping) =>
    match mapping.find? (fun e => e.1 == router s) with
    | some e => .ok e.2
    | none => .error (.unknownLabel (router s))

/-- Modelled from the spec: the execution loop (spec section 4.1): while
the current node is not the terminal marker, run the node, merge its
partial state, resolve the next node, and either suspend (interrupt
point) or continue.  `fuel` bounds the number of node executions so the
function is total; every theorem below holds for every fuel value. -/
def runLoop (g : Graph) : Nat → String → CourseGenerationState →
    Except EngineError Checkpoint
  | 0, _, _ => .error .outOfFuel
  | fuel + 1, current, s =>
    if current == END then
      .ok ⟨s, END⟩
    else
      match g.nodes.find? (fun e => e.1 == current) with
      | none => .error (.unknownNode current)
      | some entry =>
        let merged := mergeState s (entry.2 s)
        match resolveNext g current merged with
        | .error err => .error err
        | .ok next =>
          if g.interruptAfter.contains current then
            .ok ⟨merged, next⟩
          else
            runLoop g fuel next merged

/-- Modelled from the spec: `invoke(session_id, input_patch)` (spec
section 4.1), with the session's checkpoint passed explicitly: with no
checkpoint, start at the entry node from the default document plus the
input; with a checkpoint, merge the input (if any) into the stored state
and resume from the pending node. -/
def engineInvoke (g : Graph) (fuel : Nat) (cp : Option Checkpoint)
    (input : Option StatePatch) : Except EngineError Checkpoint :=
  match cp with
  | none => runLoop g fuel g.entry (mergeState emptyState (input.getD emptyPatch))
  | some c => runLoop g fuel c.pending (mergeState c.state (input.getD emptyPatch))

/-- Modelled from the spec: `patch_state` / `app.update_state` (spec
section 4.5): merge a partial state into the stored checkpoint with the
reducer rules, without advancing execution. -/
def patch_state (c : Checkpoint) (p : StatePatch) : Checkpoint :=
  ⟨mergeState c.state p, c.pending⟩

/-! ## Session store (src/storage.py)

The `user_sessions` SQLite table (`chat_id INTEGER PRIMARY KEY,
thread_id TEXT NOT NULL`) is embedded as a list of rows.  Each public
function wraps its SQL in `try/except sqlite3.Error`; the possibility
that the underlying SQLite call raises is represented by an explicit
`fails` argument to the embedded function, and the raise itself by the
`Except` result of the `db...` primitive. -/

/-- A raised `sqlite3.Error`. -/
structure SqliteFailure where
  msg : String := "sqlite3.Error"
deriving DecidableEq

/-- Rows of the `user_sessions` table: (chat_id, thread_id). -/
abbrev SessionTable := List (Int × String)

/-- `SELECT thread_id FROM user_sessions WHERE chat_id = ?` followed by
`fetchone()`; raises when `fails` is set. -/
def dbSelect (fails : Bool) (tbl : SessionTable) (chat : Int) :
    Except SqliteFailure (Option String) :=
  if fails then .error {} else .ok ((tbl.find? (fun r => r.1 == chat)).map (fun r => r.2))

/-- `INSERT OR REPLACE INTO user_sessions (chat_id, thread_id) VALUES (?, ?)`:
the primary key makes this drop any existing row for `chat` and insert
the new one; raises when `fails` is set. -/
def dbInsertOrReplace (fails : Bool) (tbl : SessionTable) (chat : Int)
    (thread : String) : Except SqliteFailure SessionTable :=
  if fails then .error {}
  else .ok (tbl.filter (fun r => !(r.1 == chat)) ++ [(chat, thread)])

/-- `DELETE FROM user_sessions WHERE chat_id = ?`; raises when `fails`
is set. -/
def dbDelete (fails : Bool) (tbl : SessionTable) (chat : Int) :
    Except SqliteFailure SessionTable :=
  if fails then .error {} else .ok (tbl.filter (fun r => !(r.1 == chat)))

/-- src/storage.py get_thread_id (lines 26-44): on `sqlite3.Error` it
logs and returns `None`. -/
def get_thread_id (tbl : SessionTable) (fails : Bool) (chat : Int) : Option String :=
  match dbSelect fails tbl chat with
  | .ok r => r
  | .error _ => none

/-- src/storage.py save_thread_id (lines 46-64): on `sqlite3.Error` it
logs and returns; the commit is never reached, so the table is
unchanged. -/
def save_thread_id (tbl : SessionTable) (fails : Bool) (chat : Int)
    (thread : String) : SessionTable :=
  match dbInsertOrReplace fails tbl chat thread with
  | .ok tbl2 => tbl2
  | .error _ => tbl

/-- src/storage.py delete_thread_id (lines 66-79): on `sqlite3.Error` it
logs and returns; the table is unchanged. -/
def delete_thread_id (tbl : SessionTable) (fails : Bool) (chat : Int) : SessionTable :=
  match dbDelete fails tbl chat with
  | .ok tbl2 => tbl2
  | .error _ => tbl

/-- src/storage.py initialize_user_sessions_db (lines 6-24):
`CREATE TABLE IF NOT EXISTS` keeps an existing table and creates an
empty one otherwise; this is the one storage function whose
`except sqlite3.Error` handler re-raises. -/
def init_user_sessions_db (fails : Bool) (existing : Option SessionTable) :
    Except SqliteFailure SessionTable :=
  if fails then .error {} else .ok (existing.getD [])

/-! ## Nodes (src/nodes.py)

LLM chains and the image API are external collaborators; their outcome
for one invocation is an explicit parameter (`ChainOutcome` for an LLM
call that may raise, an `Option` for an image generation that reports
success/failure in its result dictionary).  The prompt strings sent to
the collaborators do not influence which state keys a node returns, so
they are not reproduced here. -/

/-- Outcome of invoking an LLM chain: a value, or a raised exception. -/
inductive ChainOutcome (α : Type) where
  | ok (val : α)
  | raised (msg : String)
deriving DecidableEq

/-- src/nodes.py LessonDraft: structured output of the draft chains. -/
structure LessonDraft where
  draft_content : String
deriving DecidableEq

/-- A raised Python exception that escapes a node. -/
inductive PyError where
  | keyError (key : String)
deriving DecidableEq

/-- Error placeholder returned by generate_initial_draft on an LLM
failure (src/nodes.py line 139). -/
def draft_error_message : String := "错误：调用 LLM 生成课程时失败。请查看日志了解详情。"

/-- Placeholder HTML document returned by generate_webpage on an LLM
failure (src/nodes.py line 404). -/
def webpage_error_html : String :=
  "<html><body><h1>错误：生成网页失败</h1><p>请查看日志了解详情。</p></body></html>"

/-- src/nodes.py generate_initial_draft (lines 110-147).  `chain` is the
draft-generation chain, applied to the state's curriculum framework and
theme.  The pre-try logging statement (line 128) indexes
`state['theme']` directly, so a missing theme raises a KeyError; a
KeyError on `state["curriculum_framework"]` (line 133) happens inside
the `try` and is absorbed like an LLM failure. -/
def generate_initial_draft (st : CourseGenerationState)
    (chain : String → String → ChainOutcome LessonDraft) :
    Except PyError StatePatch :=
  match st.theme with
  | none => .error (.keyError "theme")
  | some theme =>
    match st.curriculum_framework with
    | none => .ok { lesson_draft := some draft_error_message }
    | some framework =>
      match chain framework theme with
      | .ok response => .ok { lesson_draft := some response.draft_content }
      | .raised _ => .ok { lesson_draft := some draft_error_message }

/-- src/nodes.py generate_webpage (lines 215-409).  `llmResult` is the
outcome of `llm.invoke` followed by `_extract_html_from_response`, both
inside the node's `try`; the prompt-building code before the `try` only
reads `state["final_lesson_content"]` unconditionally (line 238), so a
missing final content raises a KeyError. -/
def generate_webpage (st : CourseGenerationState)
    (llmResult : ChainOutcome String) : Except PyError StatePatch :=
  match st.final_lesson_content with
  | none => .error (.keyError "final_lesson_content")
  | some _ =>
    match llmResult with
    | .ok html => .ok { webpage_html := some html }
    | .raised _ => .ok { webpage_html := some webpage_error_html }

/-- One entry of the `modifications` array the analysis LLM returns in
regenerate_single_image (src/nodes.py lines 723-737). -/
structure Modification where
  target_image_id : String
  modification_summary : String
  new_prompt : String
deriving DecidableEq

/-- Outcome of the analysis phase of regenerate_single_image (the LLM
call plus JSON parsing, all inside its `try`): either some exception was
raised, or a list of modifications was parsed. -/
inductive AnalysisOutcome where
  | raised (msg : String)
  | parsed (mods : List Modification)
deriving DecidableEq

/-- `target_id.lower().strip().replace(" ", "_")`
(src/nodes.py line 782). -/
def normalize_target_id (s : String) : String :=
  String.mk ((pyStrip (lowerAscii s)).data.map (fun c => if c == ' ' then '_' else c))

/-- The in-place update of `updated_images` (src/nodes.py lines
812-823): find the first entry whose id equals the target, replace its
file_path and absolute_path, keep its alt_text, and stop (`break`).
Returns `none` when no entry matches (then success_count is not
incremented and the list is unchanged). -/
def updateFirstImage (tid fp ap : String) :
    List GeneratedImage → Option (List GeneratedImage)
  | [] => none
  | img :: rest =>
    if img.id == tid then
      some ({ id := tid, file_path := fp, absolute_path := ap,
              alt_text := img.alt_text } :: rest)
    else
      (updateFirstImage tid fp ap rest).map (fun l => img :: l)

/-- The body of the `for idx, mod in enumerate(modifications, 1)` loop
of regenerate_single_image (src/nodes.py lines 772-825), threading the
accumulator `(updated_images, success_count)`.  `gen` is
`generate_image_with_gemini` (prompt, image_id, lesson_id,
aspect_ratio), returning the `(file_path, absolute_path)` pair on
success and `none` when the result dictionary reports failure. -/
def regen_step (reqs : List ImageRequirement) (lessonId : String)
    (gen : String → String → String → String → Option (String × String))
    (acc : List GeneratedImage × Nat) (mod : Modification) :
    List GeneratedImage × Nat :=
  if mod.target_image_id == "" || mod.new_prompt == "" then acc
  else
    match reqs.find? (fun r => r.id == normalize_target_id mod.target_image_id) with
    | none => acc
    | some req =>
      match gen mod.new_prompt (normalize_target_id mod.target_image_id) lessonId
          (if req.type == "sentence" then "3:2" else "1:1") with
      | none => acc
      | some (fp, ap) =>
        match updateFirstImage (normalize_target_id mod.target_image_id) fp ap acc.1 with
        | none => acc
        | some updated => (updated, acc.2 + 1)

/-- src/nodes.py regenerate_single_image (lines 658-838). -/
def regenerate_single_image (st : CourseGenerationState)
    (analysis : AnalysisOutcome)
    (gen : String → String → String → String → Option (String × String)) :
    StatePatch :=
  if st.user_feedback.getD "" == "" then emptyPatch
  else if st.generated_images.getD [] == [] then emptyPatch
  else
    match analysis with
    | .raised _ => emptyPatch
    | .parsed mods =>
      if mods == [] then emptyPatch
      else
        let result := mods.foldl
          (regen_step (st.image_requirements.getD []) (st.lesson_id.getD "") gen)
          (st.generated_images.getD [], 0)
        if result.2 > 0 then { generated_images := some result.1 } else emptyPatch

/-! ## Helper lemmas -/

/-- Merging the empty patch changes nothing. -/
theorem mergeState_emptyPatch (s : CourseGenerationState) :
    mergeState s emptyPatch = s := by
  cases s
  simp [mergeState, emptyPatch, ov]

/-- Processed feedback depends only on the user_feedback field. -/
theorem processedFeedback_congr {s1 s2 : CourseGenerationState}
    (h : s1.user_feedback = s2.user_feedback) :
    processedFeedback s1 = processedFeedback s2 := by
  unfold processedFeedback
  rw [h]

/-- After filtering out all rows of a chat id, a lookup for it fails. -/
theorem find?_filter_self_eq_none (tbl : SessionTable) (chat : Int) :
    (tbl.filter (fun r => !(r.1 == chat))).find? (fun r => r.1 == chat) = none := by
  rw [List.find?_eq_none]
  intro x hx
  have hmem := List.mem_filter.mp hx
  simp only [Bool.not_eq_true'] at hmem
  simp [hmem.2]

/-- After filtering out all rows of a chat id, no row for it is counted. -/
theorem countP_filter_self_eq_zero (tbl : SessionTable) (chat : Int) :
    (tbl.filter (fun r => !(r.1 == chat))).countP (fun r => r.1 == chat) = 0 := by
  rw [List.countP_eq_zero]
  intro x hx
  have hmem := List.mem_filter.mp hx
  simp only [Bool.not_eq_true'] at hmem
  simp [hmem.2]

end EnglishCourseAgent

namespace EnglishCourseAgent

/-! ## Claim theorems -/

/-- C1: patch/resume equivalence.  For every graph, every fuel bound,
every suspended checkpoint and every input patch P, invoking the engine
directly with input P yields the same result (final state and pending
node, or the same fatal error) as first merging P into the checkpoint
via the external state-patch operation and then invoking with empty
input. -/
theorem invoke_patch_eq_patch_then_resume (g : Graph) (fuel : Nat)
    (c : Checkpoint) (P : StatePatch) (_hsusp : c.pending ≠ END) :
    engineInvoke g fuel (some c) (some P) =
      engineInvoke g fuel (some (patch_state c P)) none := by
  simp [engineInvoke, patch_state, mergeState_emptyPatch]

/-- Witness for C1 at a concrete graph, checkpoint and patch. -/
theorem invoke_patch_eq_patch_then_resume_witness :
    (Checkpoint.mk emptyState "generate_initial_draft").pending ≠ END ∧
      engineInvoke ⟨[], fun _ => none, [], "load_framework"⟩ 3
          (some (Checkpoint.mk emptyState "generate_initial_draft"))
          (some { user_feedback := some "同意" }) =
        engineInvoke ⟨[], fun _ => none, [], "load_framework"⟩ 3
          (some (patch_state (Checkpoint.mk emptyState "generate_initial_draft")
            { user_feedback := some "同意" })) none :=
  ⟨by decide, invoke_patch_eq_patch_then_resume _ 3 _ _ (by decide)⟩

/-- C2: accumulation is append-only.  For the sole accumulating field,
messages, merging patch P1 and then patch P2 into any state S yields
exactly the entries of S, then P1, then P2, in application order: no
entry is lost or reordered. -/
theorem messages_merge_append_only (s : CourseGenerationState)
    (p1 p2 : StatePatch) :
    (mergeState (mergeState s p1) p2).messages =
      s.messages ++ p1.messages.getD [] ++ p2.messages.getD [] := by
  simp [mergeState]

/-- C3: default routing on missing feedback.  Whenever the user_feedback
field is absent, empty, or whitespace-only (its stripped value is the
empty string), route_content_feedback returns the default branch
"revise_draft". -/
theorem route_content_feedback_default (s : CourseGenerationState)
    (h : pyStrip (s.user_feedback.getD "") = "") :
    route_content_feedback s = "revise_draft" := by
  have hpf : processedFeedback s = "" := by
    unfold processedFeedback
    rw [h]
    rfl
  simp only [route_content_feedback, hpf]
  decide

/-- Witness for C3 at a whitespace-only feedback value. -/
theorem route_content_feedback_default_witness :
    pyStrip ((CourseGenerationState.mk none (some "  \t ") none none none none
        none none none none []).user_feedback.getD "") = "" ∧
      route_content_feedback (CourseGenerationState.mk none (some "  \t ") none
        none none none none none none none []) = "revise_draft" :=
  ⟨by decide, route_content_feedback_default _ (by decide)⟩

/-- C4: the image-modification category takes precedence.  Whenever the
processed feedback contains any image keyword, route_webpage_feedback
returns "regenerate_single_image", regardless of any approval keywords
or phrases also present. -/
theorem route_webpage_feedback_image_override (s : CourseGenerationState)
    (h : hasAnyKeyword (processedFeedback s) image_keywords = true) :
    route_webpage_feedback s = "regenerate_single_image" := by
  simp [route_webpage_feedback, h]

/-- Witness for C4: feedback that contains an image keyword together
with an approval keyword and an approval phrase still routes to
regenerate_single_image. -/
theorem route_webpage_feedback_image_override_witness :
    hasAnyKeyword (processedFeedback (CourseGenerationState.mk none
        (some "第二张图片改成蓝色，其余没问题，很满意") none none none none none none
        none none [])) image_keywords = true ∧
      hasAnyKeyword (processedFeedback (CourseGenerationState.mk none
        (some "第二张图片改成蓝色，其余没问题，很满意") none none none none none none
        none none [])) approve_keywords = true ∧
      hasAnyKeyword (processedFeedback (CourseGenerationState.mk none
        (some "第二张图片改成蓝色，其余没问题，很满意") none none none none none none
        none none [])) approve_phrases = true ∧
      route_webpage_feedback (CourseGenerationState.mk none
        (some "第二张图片改成蓝色，其余没问题，很满意") none none none none none none
        none none []) = "regenerate_single_image" :=
  ⟨by decide, by decide, by decide,
    route_webpage_feedback_image_override _ (by decide)⟩

/-- C5: router totality over the declared label sets.  For every state,
route_content_feedback returns one of the two targets declared for its
conditional edges, and route_webpage_feedback returns one of the three
targets declared for the deploy_webpage_node edge (including the
terminal marker END). -/
theorem routers_total_over_declared_targets (s : CourseGenerationState) :
    route_content_feedback s ∈ content_edge_targets ∧
      route_webpage_feedback s ∈ webpage_edge_targets := by
  constructor
  · unfold route_content_feedback
    split
    · decide
    · split <;> decide
  · unfold route_webpage_feedback
    split
    · decide
    · split
      · decide
      · split
        · decide
        · split <;> decide

/-- C6: router determinism.  Both routers are pure functions of the
user_feedback field alone: any two states with equal user_feedback get
equal labels from route_content_feedback and from
route_webpage_feedback. -/
theorem routers_deterministic (s1 s2 : CourseGenerationState)
    (h : s1.user_feedback = s2.user_feedback) :
    route_content_feedback s1 = route_content_feedback s2 ∧
      route_webpage_feedback s1 = route_webpage_feedback s2 := by
  have hpf := processedFeedback_congr h
  constructor <;>
    simp only [route_content_feedback, route_webpage_feedback, hpf]

/-- Witness for C6: two states equal in user_feedback but different
everywhere else route identically. -/
theorem routers_deterministic_witness :
    (CourseGenerationState.mk (some "Dolphins") (some "同意") none none none
        none none none none none []).user_feedback =
      (CourseGenerationState.mk (some "Sharks") (some "同意") (some "框架")
        (some "草稿") none none none none none none []).user_feedback ∧
      route_content_feedback (CourseGenerationState.mk (some "Dolphins")
          (some "同意") none none none none none none none none []) =
        route_content_feedback (CourseGenerationState.mk (some "Sharks")
          (some "同意") (some "框架") (some "草稿") none none none none none none []) ∧
      route_webpage_feedback (CourseGenerationState.mk (some "Dolphins")
          (some "同意") none none none none none none none none []) =
        route_webpage_feedback (CourseGenerationState.mk (some "Sharks")
          (some "同意") (some "框架") (some "草稿") none none none none none none []) := by
  refine ⟨rfl, ?_⟩
  exact routers_deterministic _ _ rfl

/-- C7 counterexample: store failures do not surface.  With a SQLite
failure injected, get_thread_id returns exactly the same normal value
(None) as a successful lookup on the empty table, and save_thread_id and
delete_thread_id return normally leaving the table unchanged — no
distinct error kind reaches the caller. -/
theorem store_errors_swallowed_counterexample :
    get_thread_id [] true 1 = get_thread_id [] false 1 ∧
      save_thread_id [] true 1 "thread-1" = [] ∧
      delete_thread_id [(1, "thread-1")] true 1 = [(1, "thread-1")] := by
  decide

/-- C7 (amended): get_thread_id, save_thread_id and delete_thread_id
absorb SQLite failures — they log and return a normal result
(get_thread_id returns None, indistinguishable from a missing mapping;
save and delete leave the table unchanged); only
initialize_user_sessions_db re-raises the store failure. -/
theorem store_errors_absorbed (tbl : SessionTable) (chat : Int)
    (thread : String) :
    get_thread_id tbl true chat = none ∧
      save_thread_id tbl true chat thread = tbl ∧
      delete_thread_id tbl true chat = tbl ∧
      init_user_sessions_db true (some tbl) = .error {} :=
  ⟨rfl, rfl, rfl, rfl⟩

/-- C8: node error absorption.  If the draft-generation chain raises,
generate_initial_draft returns a partial state holding only the
lesson_draft key bound to the error placeholder; if the webpage LLM call
raises, generate_webpage returns a partial state holding only the
webpage_html key bound to the placeholder HTML document — neither node
re-raises the LLM failure. -/
theorem llm_failure_absorbed (st : CourseGenerationState) (e1 e2 : String)
    (h1 : st.theme.isSome = true)
    (h2 : st.final_lesson_content.isSome = true) :
    generate_initial_draft st (fun _ _ => .raised e1) =
        .ok { lesson_draft := some draft_error_message } ∧
      generate_webpage st (.raised e2) =
        .ok { webpage_html := some webpage_error_html } := by
  obtain ⟨th, hth⟩ := Option.isSome_iff_exists.mp h1
  obtain ⟨fc, hfc⟩ := Option.isSome_iff_exists.mp h2
  constructor
  · cases hcf : st.curriculum_framework with
    | none => simp [generate_initial_draft, hth, hcf]
    | some fw => simp [generate_initial_draft, hth, hcf]
  · simp [generate_webpage, hfc]

/-- Witness for C8 at a concrete state and raised exception. -/
theorem llm_failure_absorbed_witness :
    generate_initial_draft (CourseGenerationState.mk (some "Dolphins") none
        (some "框架") none (some "最终内容") none none none none none [])
        (fun _ _ => .raised "timeout") =
        .ok { lesson_draft := some draft_error_message } ∧
      generate_webpage (CourseGenerationState.mk (some "Dolphins") none
        (some "框架") none (some "最终内容") none none none none none [])
        (.raised "timeout") =
        .ok { webpage_html := some webpage_error_html } :=
  llm_failure_absorbed _ "timeout" "timeout" rfl rfl

/-- C9: session-mapping round-trip and uniqueness.  After a successful
save_thread_id(c, t), get_thread_id(c) returns t; a subsequent
save_thread_id(c, t') overwrites the mapping; the chat_id primary key
leaves exactly one row for c after a save; and after delete_thread_id(c)
the lookup returns None. -/
theorem session_mapping_roundtrip (tbl : SessionTable) (chat : Int)
    (t t' : String) :
    get_thread_id (save_thread_id tbl false chat t) false chat = some t ∧
      get_thread_id (save_thread_id (save_thread_id tbl false chat t) false
        chat t') false chat = some t' ∧
      (save_thread_id tbl false chat t).countP (fun r => r.1 == chat) = 1 ∧
      get_thread_id (delete_thread_id tbl false chat) false chat = none := by
  refine ⟨?_, ?_, ?_, ?_⟩
  · simp [get_thread_id, save_thread_id, dbSelect, dbInsertOrReplace,
      List.find?_append, find?_filter_self_eq_none]
  · simp [get_thread_id, save_thread_id, dbSelect, dbInsertOrReplace,
      List.find?_append, find?_filter_self_eq_none]
  · simp [save_thread_id, dbInsertOrReplace, List.countP_append,
      countP_filter_self_eq_zero, List.countP_cons]
  · simp [get_thread_id, delete_thread_id, dbSelect, dbDelete,
      find?_filter_self_eq_none]

/-- Replacing the first matching image keeps every id and every alt_text
in place. -/
theorem updateFirstImage_id_alt (tid fp ap : String) :
    ∀ (l l' : List GeneratedImage), updateFirstImage tid fp ap l = some l' →
      l'.map (fun i => (i.id, i.alt_text)) = l.map (fun i => (i.id, i.alt_text)) := by
  intro l
  induction l with
  | nil =>
    intro l' h
    simp [updateFirstImage] at h
  | cons img rest ih =>
    intro l' h
    by_cases hid : (img.id == tid) = true
    · rw [updateFirstImage, if_pos hid, Option.some.injEq] at h
      subst h
      have : img.id = tid := eq_of_beq hid
      simp [this]
    · rw [updateFirstImage, if_neg hid, Option.map_eq_some'] at h
      obtain ⟨a, ha, rfl⟩ := h
      simp [ih a ha]

/-- One loop iteration of regenerate_single_image keeps every id and
every alt_text of the accumulated image list in place. -/
theorem regen_step_id_alt (reqs : List ImageRequirement) (lessonId : String)
    (gen : String → String → String → String → Option (String × String))
    (acc : List GeneratedImage × Nat) (mod : Modification) :
    ((regen_step reqs lessonId gen acc mod).1).map (fun i => (i.id, i.alt_text)) =
      acc.1.map (fun i => (i.id, i.alt_text)) := by
  unfold regen_step
  split
  · rfl
  split
  · rfl
  split
  · rfl
  split
  · rfl
  rename_i updated hupd
  exact updateFirstImage_id_alt _ _ _ _ _ hupd

/-- The whole modification loop keeps every id and every alt_text of the
accumulated image list in place. -/
theorem foldl_regen_id_alt (reqs : List ImageRequirement) (lessonId : String)
    (gen : String → String → String → String → Option (String × String)) :
    ∀ (mods : List Modification) (acc : List GeneratedImage × Nat),
      ((mods.foldl (regen_step reqs lessonId gen) acc).1).map
          (fun i => (i.id, i.alt_text)) =
        acc.1.map (fun i => (i.id, i.alt_text)) := by
  intro mods
  induction mods with
  | nil => intro acc; rfl
  | cons m ms ih =>
    intro acc
    rw [List.foldl_cons, ih]
    exact regen_step_id_alt reqs lessonId gen acc m

/-- When every image-generation attempt fails, a loop iteration leaves
the accumulator unchanged. -/
theorem regen_step_gen_none (reqs : List ImageRequirement) (lessonId : String)
    (gen : String → String → String → String → Option (String × String))
    (hgen : ∀ p i lid a, gen p i lid a = none)
    (acc : List GeneratedImage × Nat) (mod : Modification) :
    regen_step reqs lessonId gen acc mod = acc := by
  unfold regen_step
  split
  · rfl
  split
  · rfl
  rw [hgen]

/-- When every image-generation attempt fails, the whole loop leaves the
accumulator unchanged. -/
theorem foldl_regen_gen_none (reqs : List ImageRequirement) (lessonId : String)
    (gen : String → String → String → String → Option (String × String))
    (hgen : ∀ p i lid a, gen p i lid a = none) :
    ∀ (mods : List Modification) (acc : List GeneratedImage × Nat),
      mods.foldl (regen_step reqs lessonId gen) acc = acc := by
  intro mods
  induction mods with
  | nil => intro acc; rfl
  | cons m ms ih =>
    intro acc
    rw [List.foldl_cons, regen_step_gen_none reqs lessonId gen hgen, ih]

/-- C10: frame property of regenerate_single_image.  The node only ever
returns the generated_images key (all other fields of its partial state
are absent); whenever it does return a list, that list has the same ids
in the same order and the same alt_text per entry as the stored list, so
at most file_path and absolute_path of individual entries change; and it
returns the empty partial state when the feedback is empty, when no
image was ever generated, when the analysis identifies no target, and
when every regeneration attempt fails. -/
theorem regenerate_single_image_frame (st : CourseGenerationState)
    (analysis : AnalysisOutcome)
    (gen : String → String → String → String → Option (String × String)) :
    ((regenerate_single_image st analysis gen).theme = none ∧
      (regenerate_single_image st analysis gen).user_feedback = none ∧
      (regenerate_single_image st analysis gen).curriculum_framework = none ∧
      (regenerate_single_image st analysis gen).lesson_draft = none ∧
      (regenerate_single_image st analysis gen).final_lesson_content = none ∧
      (regenerate_single_image st analysis gen).webpage_html = none ∧
      (regenerate_single_image st analysis gen).deployment_url = none ∧
      (regenerate_single_image st analysis gen).lesson_id = none ∧
      (regenerate_single_image st analysis gen).image_requirements = none ∧
      (regenerate_single_image st analysis gen).messages = none) ∧
    (∀ l, (regenerate_single_image st analysis gen).generated_images = some l →
      l.map (fun i => (i.id, i.alt_text)) =
        (st.generated_images.getD []).map (fun i => (i.id, i.alt_text))) ∧
    (st.user_feedback.getD "" = "" →
      regenerate_single_image st analysis gen = emptyPatch) ∧
    (st.generated_images.getD [] = [] →
      regenerate_single_image st analysis gen = emptyPatch) ∧
    (analysis = .parsed [] →
      regenerate_single_image st analysis gen = emptyPatch) ∧
    ((∀ p i lid a, gen p i lid a = none) →
      regenerate_single_image st analysis gen = emptyPatch) := by
  have hshape : regenerate_single_image st analysis gen = emptyPatch ∨
      ∃ mods, analysis = .parsed mods ∧ mods ≠ [] ∧
        st.user_feedback.getD "" ≠ "" ∧ st.generated_images.getD [] ≠ [] ∧
        (mods.foldl (regen_step (st.image_requirements.getD [])
            (st.lesson_id.getD "") gen) (st.generated_images.getD [], 0)).2 > 0 ∧
        regenerate_single_image st analysis gen =
          { generated_images := some ((mods.foldl (regen_step
              (st.image_requirements.getD []) (st.lesson_id.getD "") gen)
              (st.generated_images.getD [], 0)).1) } := by
    unfold regenerate_single_image
    by_cases hfb : (st.user_feedback.getD "" == "") = true
    · left; simp [hfb]
    · by_cases himg : (st.generated_images.getD [] == []) = true
      · left; simp [hfb, himg]
      · cases analysis with
        | raised msg => left; simp [hfb, himg]
        | parsed mods =>
          by_cases hmods : (mods == []) = true
          · left; simp [hfb, himg, hmods]
          · by_cases hcnt : (mods.foldl (regen_step (st.image_requirements.getD [])
                (st.lesson_id.getD "") gen) (st.generated_images.getD [], 0)).2 > 0
            · right
              refine ⟨mods, rfl, by simpa using hmods, by simpa using hfb,
                by simpa using himg, hcnt, ?_⟩
              simp [hfb, himg, hmods, hcnt]
            · left; simp [hfb, himg, hmods, hcnt]
  constructor
  · rcases hshape with h | ⟨mods, _, _, _, _, _, h⟩ <;> rw [h] <;>
      exact ⟨rfl, rfl, rfl, rfl, rfl, rfl, rfl, rfl, rfl, rfl⟩
  refine ⟨?_, ?_, ?_, ?_, ?_⟩
  · intro l hl
    rcases hshape with h | ⟨mods, _, _, _, _, _, h⟩
    · rw [h] at hl
      exact absurd hl (by simp [emptyPatch])
    · rw [h] at hl
      simp only [Option.some.injEq] at hl
      subst hl
      exact foldl_regen_id_alt _ _ _ _ _
  · intro hfb
    rcases hshape with h | ⟨mods, _, _, hfb', _, _, _⟩
    · exact h
    · exact absurd hfb hfb'
  · intro himg
    rcases hshape with h | ⟨mods, _, _, _, himg', _, _⟩
    · exact h
    · exact absurd himg himg'
  · intro hempty
    rcases hshape with h | ⟨mods, hmods, hne, _, _, _, _⟩
    · exact h
    · rw [hempty] at hmods
      cases hmods
      exact absurd rfl hne
  · intro hgen
    rcases hshape with h | ⟨mods, _, _, _, _, hcnt, _⟩
    · exact h
    · rw [foldl_regen_gen_none _ _ _ hgen] at hcnt
      exact absurd hcnt (by simp)

/-- Witness for C10: with an analysis that identifies no target image,
the node returns the empty partial state. -/
theorem regenerate_single_image_frame_witness :
    regenerate_single_image (CourseGenerationState.mk none (some "改一下图")
        none none none none none (some "L1") (some [])
        (some [GeneratedImage.mk "word_dolphin" "./images/a.png" "/tmp/a.png"
          "dolphin - 海豚"]) [])
      (AnalysisOutcome.parsed []) (fun _ _ _ _ => none) = emptyPatch :=
  (regenerate_single_image_frame _ (AnalysisOutcome.parsed [])
      (fun _ _ _ _ => none)).2.2.2.2.1 rfl

end EnglishCourseAgent

/-! Concrete evaluations of the embedded routers, checked against the
behavior of the Python originals. -/

section Evaluations
open EnglishCourseAgent
example : route_content_feedback { user_feedback := some "  同意  " } = "finalize_content" := by decide
example : route_content_feedback { user_feedback := some "   " } = "revise_draft" := by decide
example : route_content_feedback { user_feedback := some "请改短一点" } = "revise_draft" := by decide
example : route_content_feedback { user_feedback := some "I APPROVE" } = "finalize_content" := by decide
example : route_webpage_feedback { user_feedback := some "第二张图片换成红色，其他都满意" } = "regenerate_single_image" := by decide
example : route_webpage_feedback { user_feedback := some "没问题" } = "__end__" := by decide
example : route_webpage_feedback { user_feedback := some "不满意" } = "generate_webpage" := by decide
example : route_webpage_feedback { user_feedback := some "" } = "generate_webpage" := by decide
example : route_webpage_feedback { user_feedback := some "OK" } = "__end__" := by decide
end Evaluations
